import Mathlib

/-!
# pult-wo-bin-ich: a shallow embedding of `src/index.js`

The script loads a room-definition text, asks a remote API for today's check-in
record and the office list, resolves the desk coordinates to a room name and
posts the result to a chat channel.

Modelling conventions.
* JavaScript strings are Lean strings; the text functions work on their
  character lists.
* A value produced by `parseInt` is `JSNum`: `nan`, an infinity, or the integer
  value of a finite double (integers beyond 2^53 are rounded to the nearest
  double).  The sign of zero is not represented (`-0 === 0` holds in JavaScript
  as it does here).
* A plain object used as a dictionary is `RoomsObj`: its own properties in
  creation order, and the array that an assignment to `__proto__` installs as
  prototype.
* Effects (console output, remote calls, chat calls) are recorded as a trace of
  `Event`s; the outcome of each external call is read from a `World`.
-/

namespace Pult

/-! ## Text primitives -/

/-- White space in the sense of `String.prototype.trim` and of `parseInt`:
the ECMAScript WhiteSpace and LineTerminator code points. -/
def isJSWhiteSpace (c : Char) : Bool :=
  let n := c.toNat
  n == 9 || n == 10 || n == 11 || n == 12 || n == 13 || n == 32 || n == 160 ||
  n == 5760 || (8192 ≤ n && n ≤ 8202) || n == 8232 || n == 8233 || n == 8239 ||
  n == 8287 || n == 12288 || n == 65279

/-- Removal of leading white space. -/
def jsTrimStart (s : List Char) : List Char :=
  s.dropWhile isJSWhiteSpace

/-- The method `String.prototype.trim`: white space removed at both ends. -/
def jsTrim (s : List Char) : List Char :=
  (jsTrimStart (jsTrimStart s).reverse).reverse

/-- The method `String.prototype.split` with a one-character separator: the
pieces between the separators, empty pieces included; the empty text gives
one empty piece. -/
def jsSplit (sep : Char) : List Char → List (List Char)
  | [] => [[]]
  | c :: cs =>
    if c = sep then [] :: jsSplit sep cs
    else
      match jsSplit sep cs with
      | [] => [[c]]
      | piece :: pieces => (c :: piece) :: pieces

/-- A number as `parseInt` returns it (`NaN`, an infinity with its sign, or
an integer-valued finite double), or `undefined` for a missing element of a
destructured array. -/
inductive JSNum where
  | undefined
  | nan
  | inf (negative : Bool)
  | num (n : Int)
  deriving DecidableEq

/-- The comparison `v === k` of a stored value with an integer. -/
def JSNum.strictEq (v : JSNum) (k : Int) : Bool :=
  match v with
  | .num n => n == k
  | _ => false

/-- Value of a character as a digit (`0-9`, `a-z`, `A-Z`), if it is one. -/
def digitValue (c : Char) : Option Nat :=
  let n := c.toNat
  if 48 ≤ n && n ≤ 57 then some (n - 48)
  else if 97 ≤ n && n ≤ 122 then some (n - 97 + 10)
  else if 65 ≤ n && n ≤ 90 then some (n - 65 + 10)
  else none

/-- Whether a character is a digit of the given radix. -/
def isRadixDigit (radix : Nat) (c : Char) : Bool :=
  match digitValue c with
  | some d => decide (d < radix)
  | none => false

/-- Value of a run of digits in the given radix. -/
def digitsValue (radix : Nat) (ds : List Char) : Nat :=
  ds.foldl (fun acc c => acc * radix + (digitValue c).getD 0) 0

/-- Number of binary digits of `n`, found with at most `fuel` halvings. -/
def bitLength : Nat → Nat → Nat
  | 0, _ => 0
  | fuel + 1, n => if n = 0 then 0 else bitLength fuel (n / 2) + 1

/-- The double nearest to a natural number, as an integer: numbers below 2^53
are exact, larger ones keep 53 significant binary digits, rounded to nearest
with ties to even; `none` when the rounded value reaches 2^1024 (Infinity). -/
def roundToDouble (n : Nat) : Option Nat :=
  if n < 9007199254740992 then some n
  else
    let e := bitLength n n - 53
    let q := n / 2 ^ e
    let r := n % 2 ^ e
    let half := 2 ^ (e - 1)
    let q1 := if half < r ∨ (r = half ∧ q % 2 = 1) then q + 1 else q
    if 2 ^ 1024 ≤ q1 * 2 ^ e then none else some (q1 * 2 ^ e)

/-- The function `parseInt(s)` called with one argument: leading white space
is skipped, a sign is read, a leading `0x` or `0X` selects radix 16
(otherwise radix 10), and the longest run of digits is converted to a
double; no digit gives `NaN`. -/
def parseInt (s : List Char) : JSNum :=
  let s1 := jsTrimStart s
  let neg := decide (s1.head? = some (Char.ofNat 45))
  let s2 := if s1.head? = some (Char.ofNat 45) ∨ s1.head? = some (Char.ofNat 43) then s1.tail else s1
  let hex := decide (s2.take 2 = [Char.ofNat 48, Char.ofNat 120] ∨ s2.take 2 = [Char.ofNat 48, Char.ofNat 88])
  let radix := if hex then 16 else 10
  let s3 := if hex then s2.drop 2 else s2
  let ds := s3.takeWhile (isRadixDigit radix)
  if ds.isEmpty then JSNum.nan
  else
    match roundToDouble (digitsValue radix ds) with
    | none => JSNum.inf neg
    | some v => if neg then JSNum.num (-(v : Int)) else JSNum.num (v : Int)

/-! ## The room map -/

/-- A coordinate object `{ x, y }`. -/
structure Coord where
  x : JSNum
  y : JSNum
  deriving DecidableEq

/-- The object `rooms`: a plain object whose values are arrays of `Coord`.
`props` are the own enumerable properties in creation order; `proto` is the
array installed as prototype by an assignment to `__proto__`, if any. -/
structure RoomsObj where
  proto : Option (List Coord)
  props : List (String × List Coord)
  deriving DecidableEq

/-- The object literal `{}`. -/
def RoomsObj.empty : RoomsObj :=
  { proto := none, props := [] }

/-- The name of the accessor property inherited from `Object.prototype`. -/
def protoKey : String := "__proto__"

/-- The read `rooms[k]`, as far as it yields an array: an own property, or
for `__proto__` the prototype array.  Any other read (undefined, or a value
inherited from a prototype, none of which is an array) gives `none`. -/
def RoomsObj.get (o : RoomsObj) (k : String) : Option (List Coord) :=
  match o.props.lookup k with
  | some cs => some cs
  | none => if k = protoKey then o.proto else none

/-- The assignment `rooms[k] = v` of an array: an existing own property keeps
its place and takes the new value; `__proto__` replaces the prototype; any
other key becomes a new own property, created last. -/
def RoomsObj.set (o : RoomsObj) (k : String) (v : List Coord) : RoomsObj :=
  if (o.props.lookup k).isSome then
    { o with props := o.props.map (fun e => if e.1 = k then (k, v) else e) }
  else if k = protoKey then { o with proto := some v }
  else { o with props := o.props ++ [(k, v)] }

/-- Whether a property key is an array index: the canonical decimal form of
an integer from 0 to 2^32 - 2.  Such keys are enumerated first. -/
def arrayIndex (k : String) : Option Nat :=
  let cs := k.data
  if cs.isEmpty then none
  else if !cs.all (isRadixDigit 10) then none
  else if cs.head? = some (Char.ofNat 48) ∧ cs.length ≠ 1 then none
  else if digitsValue 10 cs ≤ 4294967294 then some (digitsValue 10 cs)
  else none

/-- Order of two array-index keys during enumeration. -/
def indexLE (a b : String × List Coord) : Prop :=
  (arrayIndex a.1).getD 0 ≤ (arrayIndex b.1).getD 0

instance : DecidableRel indexLE :=
  fun a b => inferInstanceAs (Decidable ((arrayIndex a.1).getD 0 ≤ (arrayIndex b.1).getD 0))

/-- The call `Object.entries(rooms)`: own properties, array-index keys first in
ascending numeric order, then the other keys in creation order. -/
def RoomsObj.entries (o : RoomsObj) : List (String × List Coord) :=
  (o.props.filter (fun e => (arrayIndex e.1).isSome)).insertionSort indexLE ++
  o.props.filter (fun e => !(arrayIndex e.1).isSome)

/-- The test `coordinates.some(coord => coord.x === x && coord.y === y)`. -/
def listsCoord (coordinates : List Coord) (x y : Int) : Bool :=
  coordinates.any (fun coord => coord.x.strictEq x && coord.y.strictEq y)

/-- The loop of `findRoom` over the entries. -/
def findRoomIn (entries : List (String × List Coord)) (x y : Int) : String :=
  match entries with
  | [] => "Unknown Room"
  | (roomName, coordinates) :: rest =>
    if listsCoord coordinates x y then roomName else findRoomIn rest x y

/-- The function `findRoom(rooms, x, y)`. -/
def findRoom (rooms : RoomsObj) (x y : Int) : String :=
  findRoomIn rooms.entries x y

/-! ## The room-definition parser -/

/-- The state of the line loop of `parseRoomDefinitions`. -/
structure ParseState where
  rooms : RoomsObj
  currentRoom : Option String
  deriving DecidableEq

/-- The test `line.trim() === ''`. -/
def isBlank (line : List Char) : Bool :=
  (jsTrim line).isEmpty

/-- The test `line.includes(',')`. -/
def hasComma (line : List Char) : Bool :=
  line.contains (Char.ofNat 44)

/-- A line that declares a room: not blank, no comma. -/
def isNameLine (line : List Char) : Bool :=
  !isBlank line && !hasComma line

/-- A line that is parsed as coordinates: not blank, with a comma. -/
def isCoordLine (line : List Char) : Bool :=
  !isBlank line && hasComma line

/-- The room name `line.trim()` of a name line. -/
def roomNameOf (line : List Char) : String :=
  String.mk (jsTrim line)

/-- The pair `{ x, y }` built from a coordinate line:
`line.split(',').map(coord => parseInt(coord.trim()))`, first two elements. -/
def parseCoord (line : List Char) : Coord :=
  let parts := (jsSplit (Char.ofNat 44) line).map (fun coord => parseInt (jsTrim coord))
  { x := parts.getD 0 JSNum.undefined, y := parts.getD 1 JSNum.undefined }

/-- The property key that `rooms[currentRoom]` reads: `null` is converted to
the string "null". -/
def keyOf (currentRoom : Option String) : String :=
  match currentRoom with
  | some name => name
  | none => "null"

/-- The message of the TypeError raised by `rooms[currentRoom].push(...)` when
`rooms[currentRoom]` is undefined. -/
def pushTypeError : String :=
  "Cannot read properties of undefined (reading 'push')"

/-- One turn of the `forEach` callback of `parseRoomDefinitions`. -/
def parseLine (st : ParseState) (line : List Char) : Except String ParseState :=
  if isBlank line then Except.ok st
  else if !hasComma line then
    Except.ok { rooms := st.rooms.set (roomNameOf line) [], currentRoom := some (roomNameOf line) }
  else
    match st.rooms.get (keyOf st.currentRoom) with
    | some coordinates =>
      Except.ok { st with rooms := st.rooms.set (keyOf st.currentRoom) (coordinates ++ [parseCoord line]) }
    | none => Except.error pushTypeError

/-- The `forEach` loop: the lines in order, stopped by the first exception. -/
def parseLines (st : ParseState) : List (List Char) → Except String ParseState
  | [] => Except.ok st
  | line :: rest =>
    match parseLine st line with
    | Except.ok st1 => parseLines st1 rest
    | Except.error e => Except.error e

/-- The lines `content.split('\n')` of a text. -/
def linesOf (content : String) : List (List Char) :=
  jsSplit (Char.ofNat 10) content.data

/-- The body of `parseRoomDefinitions` after the file has been read. -/
def parseContent (content : String) : Except String RoomsObj :=
  match parseLines { rooms := RoomsObj.empty, currentRoom := none } (linesOf content) with
  | Except.ok st => Except.ok st.rooms
  | Except.error e => Except.error e

/-- A well-formed room-definition text, by its lines: every coordinate line
is preceded by some room-name line. -/
def WellFormed (lines : List (List Char)) : Prop :=
  ∀ (before : List (List Char)) (line : List Char) (after : List (List Char)),
    lines = before ++ line :: after → isCoordLine line = true →
    ∃ n ∈ before, isNameLine n = true

/-- The function `parseRoomDefinitions()`; the argument is the outcome of
`fs.readFile('room-definition.md', 'utf-8')`. -/
def parseRoomDefinitions (file : Except String String) : Except String RoomsObj :=
  match file with
  | Except.ok content => parseContent content
  | Except.error e => Except.error e

/-! ## Remote data -/

/-- An identifier as it arrives in a JSON reply: `null`, a number or a text.
On such values `===` is equality. -/
inductive JSId where
  | null
  | num (n : Int)
  | str (s : String)
  deriving DecidableEq

/-- A check-in record, with the two fields that `main` reads. -/
structure CheckInStatus where
  resultOfficeId : JSId
  resultOfficeDeskId : JSId
  deriving DecidableEq

/-- A desk of an office. -/
structure Desk where
  id : JSId
  x : Int
  y : Int
  deriving DecidableEq

/-- An office with its desks. -/
structure Office where
  id : JSId
  desks : List Desk
  deriving DecidableEq

/-- The parsed reply to `GetTrackPollsByRange`: the messages of `data.errors`
when that field is present, and `data.data?.trackPollsRange` when present. -/
structure PollsResponse where
  errors : Option (List String)
  trackPollsRange : Option (List CheckInStatus)

/-- The parsed reply to `GetTrackOffices`: the messages of `data.errors` when
that field is present, and the field `data.data` when present, holding
`track_office` when that is present. -/
structure OfficesResponse where
  errors : Option (List String)
  data : Option (Option (List Office))

/-- The message of the TypeError raised by `data.errors[0].message` on an
empty `errors` array. -/
def messageTypeError : String :=
  "Cannot read properties of undefined (reading 'message')"

/-- The message of the TypeError raised by `officeStatus.find(...)` when
`getOfficeStatus` returned `undefined`. -/
def findTypeError : String :=
  "Cannot read properties of undefined (reading 'find')"

/-- The message of the TypeError raised by `data.data.track_office` when the
reply has no `data` field. -/
def trackOfficeTypeError : String :=
  "Cannot read properties of undefined (reading 'track_office')"

/-- The function `getMyStatus()`; the argument is the outcome of the request
and of `response.json()`.  The result is `none` for `null`. -/
def getMyStatus (response : Except String PollsResponse) :
    Except String (Option CheckInStatus) :=
  match response with
  | Except.error e => Except.error e
  | Except.ok data =>
    match data.errors with
    | some (first :: _) => Except.error first
    | some [] => Except.error messageTypeError
    | none =>
      match data.trackPollsRange with
      | none => Except.ok none
      | some [] => Except.ok none
      | some (first :: _) => Except.ok (some first)

/-- The function `getOfficeStatus()`; the argument is the outcome of the
request and of `response.json()`.  Reading `track_office` of a missing
`data.data` throws; a missing `track_office` is returned as `undefined`
(`none`). -/
def getOfficeStatus (response : Except String OfficesResponse) :
    Except String (Option (List Office)) :=
  match response with
  | Except.error e => Except.error e
  | Except.ok data =>
    match data.errors with
    | some (first :: _) => Except.error first
    | some [] => Except.error messageTypeError
    | none =>
      match data.data with
      | none => Except.error trackOfficeTypeError
      | some track_office => Except.ok track_office

/-! ## Room images and the notifier -/

/-- What `roomImages[roomName]` evaluates to: `undefined`, one of the
configured paths, or a value inherited from `Object.prototype` (a function,
or for `__proto__` the prototype object). -/
inductive ImageRef where
  | undefined
  | path (p : String)
  | inherited (key : String)
  deriving DecidableEq

/-- The own properties of the object literal `roomImages`. -/
def roomImageTable : List (String × String) :=
  [("Team Room 1", "images/Team-Room-1.png"),
   ("Team Room 2", "images/Team-Room-2.png"),
   ("Team Room 3", "images/Team-Room-3.png"),
   ("Office 1", "images/Office-1.png"),
   ("Office 2", "images/Office-2.png"),
   ("Office 3", "images/Office-3.png")]

/-- The property names of `Object.prototype`, which every object literal
inherits. -/
def objectPrototypeKeys : List String :=
  ["constructor", "__defineGetter__", "__defineSetter__", "hasOwnProperty",
   "__lookupGetter__", "__lookupSetter__", "isPrototypeOf", "propertyIsEnumerable",
   "toString", "valueOf", "__proto__", "toLocaleString"]

/-- The read `roomImages[roomName]`: an own property if there is one, else
the property inherited from `Object.prototype` if there is one, else
`undefined`. -/
def roomImages (roomName : String) : ImageRef :=
  match roomImageTable.lookup roomName with
  | some p => ImageRef.path p
  | none =>
    if roomName ∈ objectPrototypeKeys then ImageRef.inherited roomName
    else ImageRef.undefined

/-- Truthiness of an image reference, the test `if (imagePath)`: `undefined`
and the empty text are falsy. -/
def ImageRef.truthy (imagePath : ImageRef) : Bool :=
  match imagePath with
  | ImageRef.undefined => false
  | ImageRef.path p => decide (p ≠ "")
  | ImageRef.inherited _ => true

/-- The observable steps of a run. -/
inductive Event where
  | readRoomFile
  | getMyStatus
  | getOfficeStatus
  | findRoom (x y : Int)
  | consoleLog (message : String)
  | consoleError (label message : String)
  | sendSlackMessage (message : String) (imagePath : ImageRef)
  | readImage (imagePath : String)
  | filesUpload (channel comment imagePath : String)
  | postMessage (channel text : String)
  deriving DecidableEq

/-- The outcomes of the external calls of one run. -/
structure World where
  roomFile : Except String String
  polls : Except String PollsResponse
  offices : Except String OfficesResponse
  slackChannelEnv : Option String
  imageFile : Except String Unit
  upload : Except String Unit
  post : Except String Unit

/-- The constant `SLACK_CHANNEL`: `process.env.SLACK_CHANNEL || 'android-dev'`. -/
def SLACK_CHANNEL (w : World) : String :=
  match w.slackChannelEnv with
  | some c => if c = "" then "android-dev" else c
  | none => "android-dev"

/-- The message of the error raised by `path.join(__dirname, imagePath)` when
`imagePath` is not a text: Node names what it received, a function by its
name (`Object` for `constructor`), the prototype object as an instance of
`Object`. -/
def pathTypeError (imagePath : ImageRef) : String :=
  "The \"path\" argument must be of type string. Received " ++
    match imagePath with
    | ImageRef.inherited key =>
      if key = "__proto__" then "an instance of Object"
      else if key = "constructor" then "function Object"
      else "function " ++ key
    | _ => "undefined"

/-- The end of `sendSlackMessage`: the call `slack.chat.postMessage`, whose
failure is logged by the outer `catch`. -/
def postTextMessage (w : World) (message : String) : List Event :=
  Event.postMessage (SLACK_CHANNEL w) message ::
    match w.post with
    | Except.ok _ => []
    | Except.error e => [Event.consoleError "Error sending Slack message:" e]

/-- The `catch (uploadError)` block and what follows it: the error is logged
and control leaves the `if`, reaching the text-only send. -/
def afterUploadError (w : World) (message e : String) : List Event :=
  Event.consoleError "Error uploading image:" e :: postTextMessage w message

/-- Whether the upload attempt for a truthy image reference throws: in
`path.join`, in `fs.readFile` or in `slack.files.upload`. -/
def uploadFails (w : World) (imagePath : ImageRef) : Bool :=
  match imagePath with
  | ImageRef.path _ =>
    match w.imageFile, w.upload with
    | Except.ok _, Except.ok _ => false
    | _, _ => true
  | _ => true

/-- The inner `try` of `sendSlackMessage` for a truthy `imagePath`: the file
is read, then uploaded with the message as initial comment; success returns,
an exception goes to `catch (uploadError)`. -/
def uploadImage (w : World) (message : String) (imagePath : ImageRef) : List Event :=
  match imagePath with
  | ImageRef.path p =>
    Event.readImage p ::
      match w.imageFile with
      | Except.error e => afterUploadError w message e
      | Except.ok _ =>
        Event.filesUpload (SLACK_CHANNEL w) message p ::
          match w.upload with
          | Except.ok _ => []
          | Except.error e => afterUploadError w message e
  | _ => afterUploadError w message (pathTypeError imagePath)

/-- The function `sendSlackMessage(message, imagePath)`. -/
def sendSlackMessage (w : World) (message : String) (imagePath : ImageRef) : List Event :=
  Event.sendSlackMessage message imagePath ::
    if imagePath.truthy then uploadImage w message imagePath
    else postTextMessage w message

/-! ## The orchestrator -/

/-- The template literal that builds the message of an assigned room. -/
def assignedMessage (roomName : String) : String :=
  "You are assigned to " ++ roomName ++ " today."

/-- The `catch (error)` block of `main`. -/
def mainCatch (e : String) : List Event :=
  [Event.consoleError "Error:" e]

/-- The last part of `main`, once the desk is known. -/
def reportDesk (w : World) (rooms : RoomsObj) (myDesk : Desk) : List Event :=
  Event.findRoom myDesk.x myDesk.y ::
  Event.consoleLog (assignedMessage (findRoom rooms myDesk.x myDesk.y)) ::
  sendSlackMessage w (assignedMessage (findRoom rooms myDesk.x myDesk.y))
    (roomImages (findRoom rooms myDesk.x myDesk.y))

/-- The part of `main` after the office list has been fetched. -/
def reportOffice (w : World) (rooms : RoomsObj) (myStatus : CheckInStatus)
    (officeStatus : List Office) : List Event :=
  match officeStatus.find? (fun o => decide (o.id = myStatus.resultOfficeId)) with
  | none => [Event.consoleLog "Could not find office information."]
  | some office =>
    match office.desks.find? (fun d => decide (d.id = myStatus.resultOfficeDeskId)) with
    | none => [Event.consoleLog "Could not find desk information."]
    | some myDesk => reportDesk w rooms myDesk

/-- The function `main()`, as the trace of its run. -/
def main (w : World) : List Event :=
  Event.readRoomFile ::
    match parseRoomDefinitions w.roomFile with
    | Except.error e => mainCatch e
    | Except.ok rooms =>
      Event.getMyStatus ::
        match getMyStatus w.polls with
        | Except.error e => mainCatch e
        | Except.ok none => [Event.consoleLog "You are working from home today."]
        | Except.ok (some myStatus) =>
          Event.getOfficeStatus ::
            match getOfficeStatus w.offices with
            | Except.error e => mainCatch e
            | Except.ok none => mainCatch findTypeError
            | Except.ok (some officeStatus) => reportOffice w rooms myStatus officeStatus

/-! ## Sample runs -/

/-- A run built from a room-definition text, the check-in records and the
offices that the remote API returns, and the outcome of the file upload; every
other external call succeeds and no channel is configured. -/
def sampleWorld (roomText : String) (records : List CheckInStatus) (officeList : List Office)
    (upload : Except String Unit) : World :=
  { roomFile := Except.ok roomText
    polls := Except.ok { errors := none, trackPollsRange := some records }
    offices := Except.ok { errors := none, data := some (some officeList) }
    slackChannelEnv := none
    imageFile := Except.ok ()
    upload := upload
    post := Except.ok () }

/-- A check-in record for desk `desk-1` of office `office-a`. -/
def sampleStatus : CheckInStatus :=
  { resultOfficeId := JSId.str "office-a", resultOfficeDeskId := JSId.str "desk-1" }

/-- The office `office-a` with one desk, `desk-1`, at (10, 20). -/
def sampleOffice : Office :=
  { id := JSId.str "office-a", desks := [{ id := JSId.str "desk-1", x := 10, y := 20 }] }

/-- The room-definition text of the end-to-end scenario. -/
def teamRoomText : String := "Team Room 1\n10,20\n11,21"

/-! ## Association-list facts -/

theorem lookup_cons_self (k : String) (b : List Coord) (es : List (String × List Coord)) :
    ((k, b) :: es).lookup k = some b := by
  simp [List.lookup_cons]

theorem lookup_cons_other (k a : String) (b : List Coord) (es : List (String × List Coord))
    (hne : k ≠ a) : ((a, b) :: es).lookup k = es.lookup k := by
  have h1 : (k == a) = false := by simpa using hne
  simp [List.lookup_cons, h1]

theorem lookup_mem (k : String) (l : List (String × List Coord)) (v : List Coord)
    (h : l.lookup k = some v) : (k, v) ∈ l := by
  induction l with
  | nil => simp at h
  | cons e es ih =>
    obtain ⟨a, b⟩ := e
    by_cases hk : k = a
    · subst hk
      rw [lookup_cons_self] at h
      cases h
      exact List.mem_cons_self _ _
    · rw [lookup_cons_other k a b es hk] at h
      exact List.mem_cons_of_mem _ (ih h)

theorem lookup_map_set_self (k : String) (v : List Coord) (l : List (String × List Coord))
    (h : (l.lookup k).isSome = true) :
    (l.map (fun e => if e.1 = k then (k, v) else e)).lookup k = some v := by
  induction l with
  | nil => simp at h
  | cons e es ih =>
    obtain ⟨a, b⟩ := e
    rw [List.map_cons]
    by_cases hk : a = k
    · rw [if_pos hk, lookup_cons_self]
    · have hka : k ≠ a := fun h2 => hk h2.symm
      rw [if_neg hk, lookup_cons_other k a b _ hka]
      rw [lookup_cons_other k a b es hka] at h
      exact ih h

theorem lookup_map_set_other (k k2 : String) (v : List Coord) (l : List (String × List Coord))
    (hne : k2 ≠ k) :
    (l.map (fun e => if e.1 = k then (k, v) else e)).lookup k2 = l.lookup k2 := by
  induction l with
  | nil => rfl
  | cons e es ih =>
    obtain ⟨a, b⟩ := e
    rw [List.map_cons]
    by_cases hak : a = k
    · have h2 : k2 ≠ a := fun h3 => hne (h3.trans hak)
      rw [if_pos hak, lookup_cons_other k2 k v _ hne, lookup_cons_other k2 a b es h2, ih]
    · rw [if_neg hak]
      by_cases hk2 : k2 = a
      · subst hk2
        rw [lookup_cons_self, lookup_cons_self]
      · rw [lookup_cons_other k2 a b _ hk2, lookup_cons_other k2 a b es hk2, ih]

theorem lookup_append_single_self (k : String) (v : List Coord) (l : List (String × List Coord))
    (h : l.lookup k = none) : (l ++ [(k, v)]).lookup k = some v := by
  induction l with
  | nil => exact lookup_cons_self k v []
  | cons e es ih =>
    obtain ⟨a, b⟩ := e
    by_cases hk : k = a
    · subst hk
      rw [lookup_cons_self] at h
      cases h
    · rw [lookup_cons_other k a b es hk] at h
      rw [List.cons_append, lookup_cons_other k a b _ hk]
      exact ih h

theorem lookup_append_single_other (k k2 : String) (v : List Coord)
    (l : List (String × List Coord)) (hne : k2 ≠ k) :
    (l ++ [(k, v)]).lookup k2 = l.lookup k2 := by
  induction l with
  | nil => exact lookup_cons_other k2 k v [] hne
  | cons e es ih =>
    obtain ⟨a, b⟩ := e
    rw [List.cons_append]
    by_cases hk : k2 = a
    · subst hk
      rw [lookup_cons_self, lookup_cons_self]
    · rw [lookup_cons_other k2 a b _ hk, lookup_cons_other k2 a b es hk, ih]

theorem isSome_false_eq_none (r : Option (List Coord)) (h : ¬ r.isSome = true) : r = none := by
  cases r with
  | none => rfl
  | some c => exact absurd rfl h

/-- Reading a key right after assigning it gives the assigned array. -/
theorem get_set_self (o : RoomsObj) (k : String) (v : List Coord) :
    (o.set k v).get k = some v := by
  by_cases h : (o.props.lookup k).isSome = true
  · rw [RoomsObj.set, if_pos h]
    show (match (o.props.map (fun e => if e.1 = k then (k, v) else e)).lookup k with
      | some cs => some cs
      | none => if k = protoKey then o.proto else none) = some v
    rw [lookup_map_set_self k v o.props h]
  · have hnone := isSome_false_eq_none _ h
    by_cases hp : k = protoKey
    · rw [RoomsObj.set, if_neg h, if_pos hp]
      show (match o.props.lookup k with
        | some cs => some cs
        | none => if k = protoKey then some v else none) = some v
      rw [hnone]
      exact if_pos hp
    · rw [RoomsObj.set, if_neg h, if_neg hp]
      show (match (o.props ++ [(k, v)]).lookup k with
        | some cs => some cs
        | none => if k = protoKey then o.proto else none) = some v
      rw [lookup_append_single_self k v o.props hnone]

/-- Assigning one key leaves the read of every other key unchanged. -/
theorem get_set_other (o : RoomsObj) (k k2 : String) (v : List Coord) (hne : k2 ≠ k) :
    (o.set k v).get k2 = o.get k2 := by
  by_cases h : (o.props.lookup k).isSome = true
  · rw [RoomsObj.set, if_pos h]
    show (match (o.props.map (fun e => if e.1 = k then (k, v) else e)).lookup k2 with
      | some cs => some cs
      | none => if k2 = protoKey then o.proto else none) = o.get k2
    rw [lookup_map_set_other k k2 v o.props hne]
    rfl
  · by_cases hp : k = protoKey
    · have hp2 : ¬ k2 = protoKey := fun h2 => hne (h2.trans hp.symm)
      rw [RoomsObj.set, if_neg h, if_pos hp]
      show (match o.props.lookup k2 with
        | some cs => some cs
        | none => if k2 = protoKey then some v else none) = 
        (match o.props.lookup k2 with
        | some cs => some cs
        | none => if k2 = protoKey then o.proto else none)
      rw [if_neg hp2, if_neg hp2]
    · rw [RoomsObj.set, if_neg h, if_neg hp]
      show (match (o.props ++ [(k, v)]).lookup k2 with
        | some cs => some cs
        | none => if k2 = protoKey then o.proto else none) = o.get k2
      rw [lookup_append_single_other k k2 v o.props hne]
      rfl

/-- An array read under a key other than `__proto__` is an own property. -/
theorem get_mem_props (o : RoomsObj) (k : String) (cs : List Coord)
    (h : o.get k = some cs) (hk : k ≠ protoKey) : (k, cs) ∈ o.props := by
  unfold RoomsObj.get at h
  cases hl : o.props.lookup k with
  | some c =>
    rw [hl] at h
    cases h
    exact lookup_mem k o.props _ hl
  | none =>
    rw [hl] at h
    simp only [if_neg hk] at h
    cases h

/-! ## Enumeration and lookup of rooms -/

theorem entries_perm (o : RoomsObj) : o.entries.Perm o.props := by
  unfold RoomsObj.entries
  exact ((List.perm_insertionSort indexLE _).append_right _).trans
    (List.filter_append_perm (fun e => (arrayIndex e.1).isSome) o.props)

theorem mem_entries (o : RoomsObj) (e : String × List Coord) :
    e ∈ o.entries ↔ e ∈ o.props :=
  (entries_perm o).mem_iff

theorem entries_keys_nodup (o : RoomsObj) (h : (o.props.map Prod.fst).Nodup) :
    (o.entries.map Prod.fst).Nodup :=
  ((entries_perm o).map Prod.fst).nodup_iff.mpr h

theorem findRoomIn_first (before after : List (String × List Coord)) (roomName : String)
    (coordinates : List Coord) (x y : Int)
    (hbefore : ∀ e ∈ before, listsCoord e.2 x y = false)
    (hlisted : listsCoord coordinates x y = true) :
    findRoomIn (before ++ (roomName, coordinates) :: after) x y = roomName := by
  induction before with
  | nil =>
    show (if listsCoord coordinates x y then roomName else findRoomIn after x y) = roomName
    rw [if_pos hlisted]
  | cons e es ih =>
    obtain ⟨a, b⟩ := e
    have hb : listsCoord b x y = false := hbefore (a, b) (List.mem_cons_self _ _)
    show (if listsCoord b x y then a
      else findRoomIn (es ++ (roomName, coordinates) :: after) x y) = roomName
    rw [hb]
    exact ih (fun e he => hbefore e (List.mem_cons_of_mem _ he))

theorem findRoomIn_unlisted (entries : List (String × List Coord)) (x y : Int)
    (h : ∀ e ∈ entries, listsCoord e.2 x y = false) :
    findRoomIn entries x y = "Unknown Room" := by
  induction entries with
  | nil => rfl
  | cons e es ih =>
    obtain ⟨a, b⟩ := e
    have hb : listsCoord b x y = false := h (a, b) (List.mem_cons_self _ _)
    show (if listsCoord b x y then a else findRoomIn es x y) = "Unknown Room"
    rw [hb]
    exact ih (fun e he => h e (List.mem_cons_of_mem _ he))

theorem findRoomIn_listed (entries : List (String × List Coord)) (x y : Int)
    (h : ∃ e ∈ entries, listsCoord e.2 x y = true) :
    ∃ e ∈ entries, listsCoord e.2 x y = true ∧ findRoomIn entries x y = e.1 := by
  induction entries with
  | nil =>
    obtain ⟨e, he, _⟩ := h
    cases he
  | cons e es ih =>
    obtain ⟨a, b⟩ := e
    by_cases hb : listsCoord b x y = true
    · refine ⟨(a, b), List.mem_cons_self _ _, hb, ?_⟩
      show (if listsCoord b x y then a else findRoomIn es x y) = a
      rw [if_pos hb]
    · obtain ⟨e, he, hl⟩ := h
      have hrest : ∃ e ∈ es, listsCoord e.2 x y = true := by
        rcases List.mem_cons.mp he with h1 | h1
        · subst h1
          exact absurd hl hb
        · exact ⟨e, h1, hl⟩
      obtain ⟨e2, he2, hl2, hres⟩ := ih hrest
      refine ⟨e2, List.mem_cons_of_mem _ he2, hl2, ?_⟩
      show (if listsCoord b x y then a else findRoomIn es x y) = e2.1
      rw [if_neg hb]
      exact hres

/-! ## The line loop -/

theorem parseLines_append (st : ParseState) (a b : List (List Char)) :
    parseLines st (a ++ b) =
      match parseLines st a with
      | Except.ok st1 => parseLines st1 b
      | Except.error e => Except.error e := by
  induction a generalizing st with
  | nil => rfl
  | cons l ls ih =>
    show (match parseLine st l with
      | Except.ok st1 => parseLines st1 (ls ++ b)
      | Except.error e => Except.error e) = _
    show _ = (match (match parseLine st l with
      | Except.ok st1 => parseLines st1 ls
      | Except.error e => Except.error e) with
      | Except.ok st1 => parseLines st1 b
      | Except.error e => Except.error e)
    cases parseLine st l with
    | ok st1 => exact ih st1
    | error e => rfl

theorem parseLine_blank (st : ParseState) (l : List Char) (h : isBlank l = true) :
    parseLine st l = Except.ok st := by
  unfold parseLine
  rw [if_pos h]

theorem parseLine_name (st : ParseState) (l : List Char) (h : isNameLine l = true) :
    parseLine st l = Except.ok
      { rooms := st.rooms.set (roomNameOf l) [], currentRoom := some (roomNameOf l) } := by
  unfold isNameLine at h
  have hb : isBlank l = false := by
    cases hx : isBlank l <;> simp [hx] at h ⊢
  have hc : hasComma l = false := by
    cases hx : hasComma l <;> simp [hx] at h ⊢
  unfold parseLine
  simp [hb, hc]

theorem parseLine_coord (st : ParseState) (l : List Char) (h : isCoordLine l = true) :
    parseLine st l =
      match st.rooms.get (keyOf st.currentRoom) with
      | some coordinates => Except.ok { st with
          rooms := st.rooms.set (keyOf st.currentRoom) (coordinates ++ [parseCoord l]) }
      | none => Except.error pushTypeError := by
  unfold isCoordLine at h
  have hb : isBlank l = false := by
    cases hx : isBlank l <;> simp [hx] at h ⊢
  have hc : hasComma l = true := by
    cases hx : hasComma l <;> simp [hx] at h ⊢
  unfold parseLine
  simp [hb, hc]

theorem line_cases (l : List Char) :
    isBlank l = true ∨ isNameLine l = true ∨ isCoordLine l = true := by
  unfold isNameLine isCoordLine
  cases isBlank l <;> cases hasComma l <;> simp

theorem not_name_of_coord (l : List Char) (h : isCoordLine l = true) : isNameLine l = false := by
  unfold isNameLine
  unfold isCoordLine at h
  cases hb : isBlank l <;> cases hc : hasComma l <;> simp [hb, hc] at h ⊢

theorem not_name_of_blank (l : List Char) (h : isBlank l = true) : isNameLine l = false := by
  unfold isNameLine
  simp [h]

/-! ## Invariants of the line loop -/

theorem current_step (roomName : String) (st st1 : ParseState) (l : List Char)
    (hcur : st.currentRoom = some roomName)
    (hget : (st.rooms.get roomName).isSome = true)
    (hl : isNameLine l = false)
    (hstep : parseLine st l = Except.ok st1) :
    st1.currentRoom = some roomName ∧ (st1.rooms.get roomName).isSome = true := by
  rcases line_cases l with hb | hn | hc
  · rw [parseLine_blank st l hb] at hstep
    cases hstep
    exact ⟨hcur, hget⟩
  · rw [hn] at hl
    cases hl
  · have hkey : keyOf st.currentRoom = roomName := by rw [hcur]; rfl
    rw [parseLine_coord st l hc] at hstep
    cases hg : st.rooms.get (keyOf st.currentRoom) with
    | none => rw [hkey] at hg; rw [hg] at hget; cases hget
    | some cs =>
      rw [hg] at hstep
      cases hstep
      refine ⟨hcur, ?_⟩
      show ((st.rooms.set (keyOf st.currentRoom) (cs ++ [parseCoord l])).get roomName).isSome
        = true
      rw [hkey, get_set_self]
      rfl

theorem current_lines (roomName : String) (ls : List (List Char)) (st st1 : ParseState)
    (hcur : st.currentRoom = some roomName)
    (hget : (st.rooms.get roomName).isSome = true)
    (hl : ∀ l ∈ ls, isNameLine l = false)
    (hrun : parseLines st ls = Except.ok st1) :
    st1.currentRoom = some roomName ∧ (st1.rooms.get roomName).isSome = true := by
  induction ls generalizing st with
  | nil =>
    cases hrun
    exact ⟨hcur, hget⟩
  | cons l rest ih =>
    change (match parseLine st l with
      | Except.ok st2 => parseLines st2 rest
      | Except.error e => Except.error e) = Except.ok st1 at hrun
    cases hs : parseLine st l with
    | error e => rw [hs] at hrun; cases hrun
    | ok st2 =>
      rw [hs] at hrun
      obtain ⟨h1, h2⟩ := current_step roomName st st2 l hcur hget
        (hl l (List.mem_cons_self _ _)) hs
      exact ih st2 h1 h2 (fun l2 h => hl l2 (List.mem_cons_of_mem _ h)) hrun

theorem kept_step (roomName : String) (c : Coord) (st st1 : ParseState) (l : List Char)
    (hkeep : ∃ cs, st.rooms.get roomName = some cs ∧ c ∈ cs)
    (hl : isNameLine l = true → roomNameOf l ≠ roomName)
    (hstep : parseLine st l = Except.ok st1) :
    ∃ cs, st1.rooms.get roomName = some cs ∧ c ∈ cs := by
  rcases line_cases l with hb | hn | hc
  · rw [parseLine_blank st l hb] at hstep
    cases hstep
    exact hkeep
  · rw [parseLine_name st l hn] at hstep
    cases hstep
    obtain ⟨cs, h1, h2⟩ := hkeep
    refine ⟨cs, ?_, h2⟩
    show (st.rooms.set (roomNameOf l) []).get roomName = some cs
    rw [get_set_other _ _ _ _ (fun h => hl hn h.symm)]
    exact h1
  · rw [parseLine_coord st l hc] at hstep
    cases hg : st.rooms.get (keyOf st.currentRoom) with
    | none => rw [hg] at hstep; cases hstep
    | some cs2 =>
      rw [hg] at hstep
      cases hstep
      obtain ⟨cs, h1, h2⟩ := hkeep
      by_cases hk : roomName = keyOf st.currentRoom
      · refine ⟨cs2 ++ [parseCoord l], ?_, ?_⟩
        · show (st.rooms.set (keyOf st.currentRoom) (cs2 ++ [parseCoord l])).get roomName = _
          rw [hk, get_set_self]
        · rw [hk, hg] at h1
          cases h1
          exact List.mem_append_left _ h2
      · refine ⟨cs, ?_, h2⟩
        show (st.rooms.set (keyOf st.currentRoom) (cs2 ++ [parseCoord l])).get roomName = _
        rw [get_set_other _ _ _ _ hk]
        exact h1

theorem kept_lines (roomName : String) (c : Coord) (ls : List (List Char))
    (st st1 : ParseState)
    (hkeep : ∃ cs, st.rooms.get roomName = some cs ∧ c ∈ cs)
    (hl : ∀ l ∈ ls, isNameLine l = true → roomNameOf l ≠ roomName)
    (hrun : parseLines st ls = Except.ok st1) :
    ∃ cs, st1.rooms.get roomName = some cs ∧ c ∈ cs := by
  induction ls generalizing st with
  | nil =>
    cases hrun
    exact hkeep
  | cons l rest ih =>
    change (match parseLine st l with
      | Except.ok st2 => parseLines st2 rest
      | Except.error e => Except.error e) = Except.ok st1 at hrun
    cases hs : parseLine st l with
    | error e => rw [hs] at hrun; cases hrun
    | ok st2 =>
      rw [hs] at hrun
      exact ih st2 (kept_step roomName c st st2 l hkeep (hl l (List.mem_cons_self _ _)) hs)
        (fun l2 h => hl l2 (List.mem_cons_of_mem _ h)) hrun

/-- From a state whose current room holds an array, every line is accepted. -/
theorem ready_step (st : ParseState) (l : List Char)
    (hready : ∃ n, st.currentRoom = some n ∧ (st.rooms.get n).isSome = true) :
    ∃ st1, parseLine st l = Except.ok st1 ∧
      ∃ n, st1.currentRoom = some n ∧ (st1.rooms.get n).isSome = true := by
  rcases line_cases l with hb | hn | hc
  · exact ⟨st, parseLine_blank st l hb, hready⟩
  · refine ⟨_, parseLine_name st l hn, roomNameOf l, rfl, ?_⟩
    show ((st.rooms.set (roomNameOf l) []).get (roomNameOf l)).isSome = true
    rw [get_set_self]
    rfl
  · obtain ⟨n, h1, h2⟩ := hready
    have hkey : keyOf st.currentRoom = n := by rw [h1]; rfl
    rw [parseLine_coord st l hc]
    cases hg : st.rooms.get (keyOf st.currentRoom) with
    | none => rw [hkey] at hg; rw [hg] at h2; cases h2
    | some cs =>
      refine ⟨_, rfl, n, h1, ?_⟩
      show ((st.rooms.set (keyOf st.currentRoom) (cs ++ [parseCoord l])).get n).isSome = true
      rw [hkey, get_set_self]
      rfl

theorem ready_lines (ls : List (List Char)) (st : ParseState)
    (hready : ∃ n, st.currentRoom = some n ∧ (st.rooms.get n).isSome = true) :
    ∃ st1, parseLines st ls = Except.ok st1 := by
  induction ls generalizing st with
  | nil => exact ⟨st, rfl⟩
  | cons l rest ih =>
    obtain ⟨st2, h1, h2⟩ := ready_step st l hready
    obtain ⟨st1, h3⟩ := ih st2 h2
    refine ⟨st1, ?_⟩
    show (match parseLine st l with
      | Except.ok st2 => parseLines st2 rest
      | Except.error e => Except.error e) = Except.ok st1
    rw [h1]
    exact h3

/-- A text in which every coordinate line has a name line above it is
accepted, whatever the state the loop starts in. -/
theorem wellFormed_lines (ls : List (List Char)) (st : ParseState)
    (hwf : WellFormed ls) : ∃ st1, parseLines st ls = Except.ok st1 := by
  induction ls generalizing st with
  | nil => exact ⟨st, rfl⟩
  | cons l rest ih =>
    rcases line_cases l with hb | hn | hc
    · have hrest : WellFormed rest := by
        intro before line after hsplit hline
        obtain ⟨n, hmem, hname⟩ := hwf (l :: before) line after (by rw [hsplit]; rfl) hline
        rcases List.mem_cons.mp hmem with h1 | h1
        · subst h1
          rw [not_name_of_blank n hb] at hname
          cases hname
        · exact ⟨n, h1, hname⟩
      obtain ⟨st1, h3⟩ := ih st hrest
      refine ⟨st1, ?_⟩
      show (match parseLine st l with
        | Except.ok st2 => parseLines st2 rest
        | Except.error e => Except.error e) = Except.ok st1
      rw [parseLine_blank st l hb]
      exact h3
    · obtain ⟨st1, h3⟩ := ready_lines rest
        { rooms := st.rooms.set (roomNameOf l) [], currentRoom := some (roomNameOf l) }
        ⟨roomNameOf l, rfl, by
          show ((st.rooms.set (roomNameOf l) []).get (roomNameOf l)).isSome = true
          rw [get_set_self]
          rfl⟩
      refine ⟨st1, ?_⟩
      show (match parseLine st l with
        | Except.ok st2 => parseLines st2 rest
        | Except.error e => Except.error e) = Except.ok st1
      rw [parseLine_name st l hn]
      exact h3
    · obtain ⟨n, hmem, _⟩ := hwf [] l rest rfl hc
      cases hmem

/-- A text that starts with a name line is well formed. -/
theorem wellFormed_of_name_first (l : List Char) (rest : List (List Char))
    (hn : isNameLine l = true) : WellFormed (l :: rest) := by
  intro before line after hsplit hline
  cases before with
  | nil =>
    have h1 : l = line := List.head_eq_of_cons_eq hsplit
    subst h1
    rw [not_name_of_coord l hline] at hn
    cases hn
  | cons b bs =>
    have h1 : l = b := List.head_eq_of_cons_eq hsplit
    subst h1
    exact ⟨l, List.mem_cons_self _ _, hn⟩

/-! ## Room resolution -/

/-- C1: if (x, y) is listed under exactly one room of the map, `findRoom`
returns the name of that room. -/
theorem findRoom_of_unique_room (rooms : RoomsObj) (x y : Int) (roomName : String)
    (coordinates : List Coord)
    (hroom : (roomName, coordinates) ∈ rooms.props)
    (hlisted : listsCoord coordinates x y = true)
    (hunique : ∀ e ∈ rooms.props, listsCoord e.2 x y = true → e.1 = roomName) :
    findRoom rooms x y = roomName := by
  obtain ⟨e, he, hl, hres⟩ := findRoomIn_listed rooms.entries x y
    ⟨(roomName, coordinates), (mem_entries rooms _).mpr hroom, hlisted⟩
  show findRoomIn rooms.entries x y = roomName
  rw [hres]
  exact hunique e ((mem_entries rooms e).mp he) hl

/-- A map with two rooms, where only `Office 2` lists (3, 4). -/
theorem findRoom_of_unique_room_witness :
    findRoom { proto := none,
               props := [("Office 1", [{ x := JSNum.num 1, y := JSNum.num 2 }]),
                         ("Office 2", [{ x := JSNum.num 3, y := JSNum.num 4 }])] } 3 4
      = "Office 2" :=
  findRoom_of_unique_room _ 3 4 "Office 2" [{ x := JSNum.num 3, y := JSNum.num 4 }]
    (by decide) (by decide) (by decide)

/-- C2: if no room of the map lists (x, y), `findRoom` returns the text
"Unknown Room". -/
theorem findRoom_unknown_of_unlisted (rooms : RoomsObj) (x y : Int)
    (hnone : ∀ e ∈ rooms.props, listsCoord e.2 x y = false) :
    findRoom rooms x y = "Unknown Room" :=
  findRoomIn_unlisted rooms.entries x y (fun e he => hnone e ((mem_entries rooms e).mp he))

/-- A map with two rooms, neither of which lists (3, 4); a `NaN` coordinate
matches no integer. -/
theorem findRoom_unknown_of_unlisted_witness :
    findRoom { proto := none,
               props := [("Office 1", [{ x := JSNum.num 1, y := JSNum.num 2 }]),
                         ("Office 2", [{ x := JSNum.nan, y := JSNum.num 4 }])] } 3 4
      = "Unknown Room" :=
  findRoom_unknown_of_unlisted _ 3 4 (by decide)

/-- The test of `findRoom` on an array and an integer pair is membership of
the pair `{ x, y }` in the array: `===` with an integer holds of that integer
only. -/
theorem listsCoord_iff_mem (coordinates : List Coord) (x y : Int) :
    listsCoord coordinates x y = true ↔ Coord.mk (JSNum.num x) (JSNum.num y) ∈ coordinates := by
  unfold listsCoord
  rw [List.any_eq_true]
  constructor
  · rintro ⟨coord, hmem, htest⟩
    obtain ⟨cx, cy⟩ := coord
    cases cx <;> cases cy <;> simp [JSNum.strictEq] at htest
    obtain ⟨h1, h2⟩ := htest
    subst h1
    subst h2
    exact hmem
  · intro hmem
    exact ⟨_, hmem, by simp [JSNum.strictEq]⟩

/-- C10: `findRoom` returns the name of the first room, in the order of
`Object.entries`, whose list has the pair (x, y) as an element: the rooms
enumerated before it do not have the pair, and the name of no later room is
returned, also when later rooms have the same pair. -/
theorem findRoom_first_in_order (rooms : RoomsObj) (x y : Int)
    (before after : List (String × List Coord)) (roomName : String)
    (coordinates : List Coord)
    (hkeys : (rooms.props.map Prod.fst).Nodup)
    (horder : rooms.entries = before ++ (roomName, coordinates) :: after)
    (hbefore : ∀ e ∈ before, Coord.mk (JSNum.num x) (JSNum.num y) ∉ e.2)
    (hlisted : Coord.mk (JSNum.num x) (JSNum.num y) ∈ coordinates) :
    findRoom rooms x y = roomName ∧ ∀ e ∈ after, findRoom rooms x y ≠ e.1 := by
  have hres : findRoom rooms x y = roomName := by
    show findRoomIn rooms.entries x y = roomName
    rw [horder]
    refine findRoomIn_first before after roomName coordinates x y ?_
      ((listsCoord_iff_mem coordinates x y).mpr hlisted)
    intro e he
    cases hl : listsCoord e.2 x y with
    | false => rfl
    | true => exact absurd ((listsCoord_iff_mem e.2 x y).mp hl) (hbefore e he)
  refine ⟨hres, ?_⟩
  intro e he heq
  have hnd := entries_keys_nodup rooms hkeys
  rw [horder, List.map_append, List.map_cons] at hnd
  have hnd2 := (List.nodup_append.mp hnd).2.1
  have hnot := (List.nodup_cons.mp hnd2).1
  have hname : roomName = e.1 := hres.symm.trans heq
  rw [hname] at hnot
  exact hnot (List.mem_map.mpr ⟨e, he, rfl⟩)

/-- Three rooms created in the order `Office 1`, `7`, `Office 2`: the array
index `7` is enumerated first and does not have (1, 2); `Office 1` and
`Office 2` both have it, and the result is `Office 1`. -/
theorem findRoom_first_in_order_witness :
    RoomsObj.entries
        { proto := none,
          props := [("Office 1", [Coord.mk (JSNum.num 1) (JSNum.num 2)]),
                    ("7", [Coord.mk (JSNum.num 0) (JSNum.num 0)]),
                    ("Office 2", [Coord.mk (JSNum.num 1) (JSNum.num 2)])] }
      = [("7", [Coord.mk (JSNum.num 0) (JSNum.num 0)])] ++
          ("Office 1", [Coord.mk (JSNum.num 1) (JSNum.num 2)]) ::
          [("Office 2", [Coord.mk (JSNum.num 1) (JSNum.num 2)])] ∧
    findRoom
        { proto := none,
          props := [("Office 1", [Coord.mk (JSNum.num 1) (JSNum.num 2)]),
                    ("7", [Coord.mk (JSNum.num 0) (JSNum.num 0)]),
                    ("Office 2", [Coord.mk (JSNum.num 1) (JSNum.num 2)])] } 1 2
      = "Office 1" ∧
    ∀ e ∈ [("Office 2", [Coord.mk (JSNum.num 1) (JSNum.num 2)])],
      findRoom
        { proto := none,
          props := [("Office 1", [Coord.mk (JSNum.num 1) (JSNum.num 2)]),
                    ("7", [Coord.mk (JSNum.num 0) (JSNum.num 0)]),
                    ("Office 2", [Coord.mk (JSNum.num 1) (JSNum.num 2)])] } 1 2 ≠ e.1 :=
  ⟨by rfl,
   findRoom_first_in_order _ 1 2 [("7", [Coord.mk (JSNum.num 0) (JSNum.num 0)])]
     [("Office 2", [Coord.mk (JSNum.num 1) (JSNum.num 2)])] "Office 1"
     [Coord.mk (JSNum.num 1) (JSNum.num 2)]
     (by decide) (by rfl) (by decide) (by decide)⟩

/-! ## The room-definition parser -/

/-- C3, as the code has it: in a well-formed text, a coordinate line whose
nearest name line above it declares N is parsed into a pair that is an
element of the array read as `rooms[N]` in the result, provided no name line
below the coordinate line declares N again; for N other than `__proto__` that
array is an own property of the map. -/
theorem coordinates_attributed_to_current_room (content : String)
    (before middle after : List (List Char)) (nameLine coordLine : List Char)
    (hwf : WellFormed (linesOf content))
    (hsplit : linesOf content = before ++ nameLine :: (middle ++ coordLine :: after))
    (hname : isNameLine nameLine = true)
    (hmiddle : ∀ l ∈ middle, isNameLine l = false)
    (hcoord : isCoordLine coordLine = true)
    (hafter : ∀ l ∈ after, isNameLine l = true → roomNameOf l ≠ roomNameOf nameLine) :
    ∃ rooms coordinates,
      parseRoomDefinitions (Except.ok content) = Except.ok rooms ∧
      rooms.get (roomNameOf nameLine) = some coordinates ∧
      parseCoord coordLine ∈ coordinates ∧
      (roomNameOf nameLine ≠ protoKey → (roomNameOf nameLine, coordinates) ∈ rooms.props) := by
  obtain ⟨stF, hrun⟩ := wellFormed_lines (linesOf content)
    { rooms := RoomsObj.empty, currentRoom := none } hwf
  have hparse : parseRoomDefinitions (Except.ok content) = Except.ok stF.rooms := by
    show (match parseLines { rooms := RoomsObj.empty, currentRoom := none } (linesOf content) with
      | Except.ok st => Except.ok st.rooms
      | Except.error e => Except.error e) = Except.ok stF.rooms
    rw [hrun]
  have hrun2 := hrun
  rw [hsplit, parseLines_append] at hrun2
  cases h1 : parseLines { rooms := RoomsObj.empty, currentRoom := none } before with
  | error e => rw [h1] at hrun2; cases hrun2
  | ok st1 =>
    rw [h1] at hrun2
    change (match parseLine st1 nameLine with
      | Except.ok st2 => parseLines st2 (middle ++ coordLine :: after)
      | Except.error e => Except.error e) = Except.ok stF at hrun2
    rw [parseLine_name st1 nameLine hname] at hrun2
    change parseLines _ (middle ++ coordLine :: after) = Except.ok stF at hrun2
    rw [parseLines_append] at hrun2
    cases h3 : parseLines (ParseState.mk (st1.rooms.set (roomNameOf nameLine) [])
        (some (roomNameOf nameLine))) middle with
    | error e => rw [h3] at hrun2; cases hrun2
    | ok st3 =>
      rw [h3] at hrun2
      obtain ⟨hcur, hsome⟩ := current_lines (roomNameOf nameLine) middle _ st3 rfl
        (by
          show ((st1.rooms.set (roomNameOf nameLine) []).get (roomNameOf nameLine)).isSome = true
          rw [get_set_self]
          rfl) hmiddle h3
      have hkey : keyOf st3.currentRoom = roomNameOf nameLine := by rw [hcur]; rfl
      change (match parseLine st3 coordLine with
        | Except.ok st4 => parseLines st4 after
        | Except.error e => Except.error e) = Except.ok stF at hrun2
      rw [parseLine_coord st3 coordLine hcoord] at hrun2
      cases hg : st3.rooms.get (keyOf st3.currentRoom) with
      | none => rw [hkey] at hg; rw [hg] at hsome; cases hsome
      | some cs =>
        rw [hg] at hrun2
        change parseLines _ after = Except.ok stF at hrun2
        obtain ⟨coordinates, hget, hmem⟩ := kept_lines (roomNameOf nameLine)
          (parseCoord coordLine) after _ stF
          ⟨cs ++ [parseCoord coordLine], by
            show (st3.rooms.set (keyOf st3.currentRoom) (cs ++ [parseCoord coordLine])).get
              (roomNameOf nameLine) = _
            rw [hkey, get_set_self], List.mem_append_right _ (List.mem_singleton_self _)⟩
          hafter hrun2
        exact ⟨stF.rooms, coordinates, hparse, hget, hmem,
          fun hne => get_mem_props stF.rooms _ coordinates hget hne⟩

/-- In the scenario text the line `11,21` follows the name line `Team Room 1`
and the coordinate line `10,20`. -/
theorem coordinates_attributed_to_current_room_witness :
    ∃ rooms coordinates,
      parseRoomDefinitions (Except.ok teamRoomText) = Except.ok rooms ∧
      rooms.get "Team Room 1" = some coordinates ∧
      Coord.mk (JSNum.num 11) (JSNum.num 21) ∈ coordinates ∧
      ("Team Room 1" ≠ protoKey → ("Team Room 1", coordinates) ∈ rooms.props) :=
  coordinates_attributed_to_current_room teamRoomText [] ["10,20".data] []
    "Team Room 1".data "11,21".data
    (wellFormed_of_name_first "Team Room 1".data ["10,20".data, "11,21".data] (by decide))
    (by rfl) (by decide) (by decide) (by decide) (by decide)

/-- C3, counterexample: the text `A`, `1,2`, `A` is well formed and its
coordinate line has the name line `A` as nearest name line above it, yet the
array stored under `A` in the result is empty: the second declaration of `A`
assigned a new empty array. -/
theorem redeclared_room_loses_coordinates :
    WellFormed (linesOf "A\n1,2\nA") ∧
    linesOf "A\n1,2\nA" = [] ++ "A".data :: ([] ++ "1,2".data :: ["A".data]) ∧
    isNameLine "A".data = true ∧ isCoordLine "1,2".data = true ∧
    parseRoomDefinitions (Except.ok "A\n1,2\nA")
      = Except.ok { proto := none, props := [("A", [])] } ∧
    RoomsObj.get { proto := none, props := [("A", [])] } (roomNameOf "A".data) = some [] ∧
    parseCoord "1,2".data ∉ ([] : List Coord) :=
  ⟨wellFormed_of_name_first "A".data ["1,2".data, "A".data] (by decide),
   by rfl, by decide, by decide, by rfl, by decide, by decide⟩

/-- A room declared as `__proto__`: the assignment installs the array as
prototype of `rooms`, the pair is pushed onto that array, and the map has no
own property, so `findRoom` does not see the pair. -/
theorem proto_room_not_enumerated :
    parseRoomDefinitions (Except.ok "__proto__\n10,20")
      = Except.ok { proto := some [Coord.mk (JSNum.num 10) (JSNum.num 20)], props := [] } ∧
    RoomsObj.get { proto := some [Coord.mk (JSNum.num 10) (JSNum.num 20)], props := [] }
      "__proto__" = some [Coord.mk (JSNum.num 10) (JSNum.num 20)] ∧
    findRoom { proto := some [Coord.mk (JSNum.num 10) (JSNum.num 20)], props := [] } 10 20
      = "Unknown Room" :=
  ⟨by rfl, by decide, by decide⟩

/-- C4: a text whose first non-blank line contains a comma makes
`parseRoomDefinitions` fail with an error: the read `rooms[null]` is
undefined and `push` cannot be called on it. -/
theorem parse_fails_on_leading_coordinate (content : String)
    (before after : List (List Char)) (line : List Char)
    (hsplit : linesOf content = before ++ line :: after)
    (hblank : ∀ l ∈ before, isBlank l = true)
    (hline : isCoordLine line = true) :
    parseRoomDefinitions (Except.ok content) = Except.error pushTypeError := by
  have hrun : ∀ ls : List (List Char), (∀ l ∈ ls, isBlank l = true) →
      parseLines { rooms := RoomsObj.empty, currentRoom := none } (ls ++ line :: after)
        = Except.error pushTypeError := by
    intro ls
    induction ls with
    | nil =>
      intro _
      show (match parseLine { rooms := RoomsObj.empty, currentRoom := none } line with
        | Except.ok st1 => parseLines st1 after
        | Except.error e => Except.error e) = Except.error pushTypeError
      rw [parseLine_coord _ line hline]
      rfl
    | cons l rest ih =>
      intro hb
      show (match parseLine { rooms := RoomsObj.empty, currentRoom := none } l with
        | Except.ok st1 => parseLines st1 (rest ++ line :: after)
        | Except.error e => Except.error e) = Except.error pushTypeError
      rw [parseLine_blank _ l (hb l (List.mem_cons_self _ _))]
      exact ih (fun l2 h => hb l2 (List.mem_cons_of_mem _ h))
  show (match parseLines { rooms := RoomsObj.empty, currentRoom := none } (linesOf content) with
    | Except.ok st => Except.ok st.rooms
    | Except.error e => Except.error e) = Except.error pushTypeError
  rw [hsplit, hrun before hblank]

/-- An empty line, then the coordinate line ` 10,20`, then a name line. -/
theorem parse_fails_on_leading_coordinate_witness :
    parseRoomDefinitions (Except.ok "\n 10,20\nTeam Room 1") = Except.error pushTypeError :=
  parse_fails_on_leading_coordinate "\n 10,20\nTeam Room 1" ["".data] ["Team Room 1".data]
    " 10,20".data (by rfl) (by decide) (by decide)

/-! ## The notifier -/

theorem postMessage_mem_postTextMessage (w : World) (message : String) :
    Event.postMessage (SLACK_CHANNEL w) message ∈ postTextMessage w message :=
  List.mem_cons_self _ _

theorem postMessage_mem_afterUploadError (w : World) (message e : String) :
    Event.postMessage (SLACK_CHANNEL w) message ∈ afterUploadError w message e :=
  List.mem_cons_of_mem _ (postMessage_mem_postTextMessage w message)

/-- C5, as the code has it: the text-only message is posted when no image
reference was supplied and also when the upload of a supplied one fails (the
error is logged first); `postMessage` is left out only when the upload
succeeds. -/
theorem sendSlackMessage_posts_text (w : World) (message : String) (imagePath : ImageRef) :
    (imagePath.truthy = false →
      Event.postMessage (SLACK_CHANNEL w) message ∈ sendSlackMessage w message imagePath) ∧
    (imagePath.truthy = true → uploadFails w imagePath = true →
      (∃ e, Event.consoleError "Error uploading image:" e
        ∈ sendSlackMessage w message imagePath) ∧
      Event.postMessage (SLACK_CHANNEL w) message ∈ sendSlackMessage w message imagePath) ∧
    (imagePath.truthy = true → uploadFails w imagePath = false →
      ∀ channel text, Event.postMessage channel text ∉ sendSlackMessage w message imagePath) := by
  refine ⟨?_, ?_, ?_⟩
  · intro hfalsy
    unfold sendSlackMessage
    rw [hfalsy]
    exact List.mem_cons_of_mem _ (postMessage_mem_postTextMessage w message)
  · intro htruthy hfail
    unfold sendSlackMessage
    rw [htruthy]
    cases imagePath with
    | undefined => cases htruthy
    | inherited key =>
      exact ⟨⟨_, List.mem_cons_of_mem _ (List.mem_cons_self _ _)⟩,
        List.mem_cons_of_mem _ (postMessage_mem_afterUploadError w message _)⟩
    | path p =>
      unfold uploadFails at hfail
      unfold uploadImage
      cases hi : w.imageFile with
      | error e =>
        exact ⟨⟨e, by simp [afterUploadError]⟩,
          List.mem_cons_of_mem _ (List.mem_cons_of_mem _
            (postMessage_mem_afterUploadError w message e))⟩
      | ok u =>
        cases hu : w.upload with
        | error e =>
          exact ⟨⟨e, by simp [afterUploadError]⟩,
            List.mem_cons_of_mem _ (List.mem_cons_of_mem _ (List.mem_cons_of_mem _
              (postMessage_mem_afterUploadError w message e)))⟩
        | ok u2 =>
          rw [hi, hu] at hfail
          cases hfail
  · intro htruthy hok channel text
    unfold sendSlackMessage
    rw [htruthy]
    cases imagePath with
    | undefined => cases htruthy
    | inherited key => cases hok
    | path p =>
      unfold uploadFails at hok
      unfold uploadImage
      cases hi : w.imageFile with
      | error e => rw [hi] at hok; cases hok
      | ok u =>
        cases hu : w.upload with
        | error e => rw [hi, hu] at hok; cases hok
        | ok u2 => simp

/-- A run in which the upload of `images/Office-1.png` is refused. -/
theorem sendSlackMessage_posts_text_witness :
    Event.postMessage "android-dev" "hello" ∈
      sendSlackMessage (sampleWorld teamRoomText [] [] (Except.error "upload refused")) "hello"
        (ImageRef.path "images/Office-1.png") :=
  ((sendSlackMessage_posts_text (sampleWorld teamRoomText [] [] (Except.error "upload refused"))
    "hello" (ImageRef.path "images/Office-1.png")).2.1 (by decide) (by decide)).2

/-- C5, counterexample: with the image reference `images/Team-Room-1.png`
supplied and the upload refused, the run of `sendSlackMessage` logs the upload
error and then calls `postMessage`. -/
theorem failed_upload_falls_back_to_text :
    (ImageRef.path "images/Team-Room-1.png").truthy = true ∧
    uploadFails (sampleWorld teamRoomText [] [] (Except.error "upload refused"))
      (ImageRef.path "images/Team-Room-1.png") = true ∧
    sendSlackMessage (sampleWorld teamRoomText [] [] (Except.error "upload refused"))
        "You are assigned to Team Room 1 today." (ImageRef.path "images/Team-Room-1.png")
      = [Event.sendSlackMessage "You are assigned to Team Room 1 today."
           (ImageRef.path "images/Team-Room-1.png"),
         Event.readImage "images/Team-Room-1.png",
         Event.filesUpload "android-dev" "You are assigned to Team Room 1 today."
           "images/Team-Room-1.png",
         Event.consoleError "Error uploading image:" "upload refused",
         Event.postMessage "android-dev" "You are assigned to Team Room 1 today."] := by
  decide

/-! ## The orchestrator -/

/-- C6: when `getMyStatus` yields no record, the run logs exactly "You are
working from home today." and stops: neither `getOfficeStatus` nor
`sendSlackMessage` is called. -/
theorem main_working_from_home (w : World) (rooms : RoomsObj)
    (hrooms : parseRoomDefinitions w.roomFile = Except.ok rooms)
    (hstatus : getMyStatus w.polls = Except.ok none) :
    main w = [Event.readRoomFile, Event.getMyStatus,
              Event.consoleLog "You are working from home today."] ∧
    Event.getOfficeStatus ∉ main w ∧
    ∀ message imagePath, Event.sendSlackMessage message imagePath ∉ main w := by
  have hmain : main w = [Event.readRoomFile, Event.getMyStatus,
      Event.consoleLog "You are working from home today."] := by
    unfold main
    rw [hrooms, hstatus]
  rw [hmain]
  simp

/-- A run in which the remote API returns no record for today. -/
theorem main_working_from_home_witness :
    main (sampleWorld teamRoomText [] [sampleOffice] (Except.ok ()))
      = [Event.readRoomFile, Event.getMyStatus,
         Event.consoleLog "You are working from home today."] ∧
    Event.getOfficeStatus ∉ main (sampleWorld teamRoomText [] [sampleOffice] (Except.ok ())) ∧
    ∀ message imagePath, Event.sendSlackMessage message imagePath
      ∉ main (sampleWorld teamRoomText [] [sampleOffice] (Except.ok ())) :=
  main_working_from_home (sampleWorld teamRoomText [] [sampleOffice] (Except.ok ()))
    { proto := none,
      props := [("Team Room 1", [Coord.mk (JSNum.num 10) (JSNum.num 20),
                                 Coord.mk (JSNum.num 11) (JSNum.num 21)])] }
    (by rfl) (by rfl)

/-- C7: when no fetched office has the id of the status, the run logs "Could
not find office information." and stops: no room is resolved and
`sendSlackMessage` is not called. -/
theorem main_office_not_found (w : World) (rooms : RoomsObj) (myStatus : CheckInStatus)
    (officeStatus : List Office)
    (hrooms : parseRoomDefinitions w.roomFile = Except.ok rooms)
    (hstatus : getMyStatus w.polls = Except.ok (some myStatus))
    (hoffices : getOfficeStatus w.offices = Except.ok (some officeStatus))
    (hnone : ∀ o ∈ officeStatus, o.id ≠ myStatus.resultOfficeId) :
    main w = [Event.readRoomFile, Event.getMyStatus, Event.getOfficeStatus,
              Event.consoleLog "Could not find office information."] ∧
    (∀ x y, Event.findRoom x y ∉ main w) ∧
    ∀ message imagePath, Event.sendSlackMessage message imagePath ∉ main w := by
  have hfind : officeStatus.find? (fun o => decide (o.id = myStatus.resultOfficeId)) = none := by
    rw [List.find?_eq_none]
    intro o ho
    simpa using hnone o ho
  have hmain : main w = [Event.readRoomFile, Event.getMyStatus, Event.getOfficeStatus,
      Event.consoleLog "Could not find office information."] := by
    unfold main
    rw [hrooms, hstatus, hoffices]
    show Event.readRoomFile :: Event.getMyStatus :: Event.getOfficeStatus ::
      reportOffice w rooms myStatus officeStatus = _
    unfold reportOffice
    rw [hfind]
  rw [hmain]
  simp

/-- A run in which the status names `office-a` and only `office-b` is fetched. -/
theorem main_office_not_found_witness :
    main (sampleWorld teamRoomText [sampleStatus]
        [{ id := JSId.str "office-b", desks := sampleOffice.desks }] (Except.ok ()))
      = [Event.readRoomFile, Event.getMyStatus, Event.getOfficeStatus,
         Event.consoleLog "Could not find office information."] :=
  (main_office_not_found _
    { proto := none,
      props := [("Team Room 1", [Coord.mk (JSNum.num 10) (JSNum.num 20),
                                 Coord.mk (JSNum.num 11) (JSNum.num 21)])] }
    sampleStatus [{ id := JSId.str "office-b", desks := sampleOffice.desks }]
    (by rfl) (by rfl) (by rfl) (by decide)).1

/-- C8: when the office of the status is found but none of its desks has the
desk id of the status, the run logs "Could not find desk information." and
stops: no room is resolved and `sendSlackMessage` is not called. -/
theorem main_desk_not_found (w : World) (rooms : RoomsObj) (myStatus : CheckInStatus)
    (officeStatus : List Office) (office : Office)
    (hrooms : parseRoomDefinitions w.roomFile = Except.ok rooms)
    (hstatus : getMyStatus w.polls = Except.ok (some myStatus))
    (hoffices : getOfficeStatus w.offices = Except.ok (some officeStatus))
    (hoffice : officeStatus.find? (fun o => decide (o.id = myStatus.resultOfficeId))
      = some office)
    (hnone : ∀ d ∈ office.desks, d.id ≠ myStatus.resultOfficeDeskId) :
    main w = [Event.readRoomFile, Event.getMyStatus, Event.getOfficeStatus,
              Event.consoleLog "Could not find desk information."] ∧
    (∀ x y, Event.findRoom x y ∉ main w) ∧
    ∀ message imagePath, Event.sendSlackMessage message imagePath ∉ main w := by
  have hfind : office.desks.find? (fun d => decide (d.id = myStatus.resultOfficeDeskId))
      = none := by
    rw [List.find?_eq_none]
    intro d hd
    simpa using hnone d hd
  have hmain : main w = [Event.readRoomFile, Event.getMyStatus, Event.getOfficeStatus,
      Event.consoleLog "Could not find desk information."] := by
    unfold main
    rw [hrooms, hstatus, hoffices]
    show Event.readRoomFile :: Event.getMyStatus :: Event.getOfficeStatus ::
      reportOffice w rooms myStatus officeStatus = _
    unfold reportOffice
    rw [hoffice]
    show Event.readRoomFile :: Event.getMyStatus :: Event.getOfficeStatus ::
      (match office.desks.find? (fun d => decide (d.id = myStatus.resultOfficeDeskId)) with
        | none => [Event.consoleLog "Could not find desk information."]
        | some myDesk => reportDesk w rooms myDesk) = _
    rw [hfind]
  rw [hmain]
  simp

/-- A run in which the status names `desk-1` and `office-a` only has `desk-9`. -/
theorem main_desk_not_found_witness :
    main (sampleWorld teamRoomText [sampleStatus]
        [{ id := JSId.str "office-a", desks := [{ id := JSId.str "desk-9", x := 10, y := 20 }] }]
        (Except.ok ()))
      = [Event.readRoomFile, Event.getMyStatus, Event.getOfficeStatus,
         Event.consoleLog "Could not find desk information."] :=
  (main_desk_not_found _
    { proto := none,
      props := [("Team Room 1", [Coord.mk (JSNum.num 10) (JSNum.num 20),
                                 Coord.mk (JSNum.num 11) (JSNum.num 21)])] }
    sampleStatus
    [{ id := JSId.str "office-a", desks := [{ id := JSId.str "desk-9", x := 10, y := 20 }] }]
    { id := JSId.str "office-a", desks := [{ id := JSId.str "desk-9", x := 10, y := 20 }] }
    (by rfl) (by rfl) (by rfl) (by rfl) (by decide)).1

/-- The last step of `main`: once the desk is found, the run resolves the
room, logs "You are assigned to ... today." with the result of `findRoom`, and
calls `sendSlackMessage` with that message and the value of
`roomImages[roomName]`. -/
theorem main_assigned (w : World) (rooms : RoomsObj) (myStatus : CheckInStatus)
    (officeStatus : List Office) (office : Office) (myDesk : Desk)
    (hrooms : parseRoomDefinitions w.roomFile = Except.ok rooms)
    (hstatus : getMyStatus w.polls = Except.ok (some myStatus))
    (hoffices : getOfficeStatus w.offices = Except.ok (some officeStatus))
    (hoffice : officeStatus.find? (fun o => decide (o.id = myStatus.resultOfficeId))
      = some office)
    (hdesk : office.desks.find? (fun d => decide (d.id = myStatus.resultOfficeDeskId))
      = some myDesk) :
    main w = Event.readRoomFile :: Event.getMyStatus :: Event.getOfficeStatus ::
      Event.findRoom myDesk.x myDesk.y ::
      Event.consoleLog ("You are assigned to " ++ findRoom rooms myDesk.x myDesk.y ++ " today.") ::
      sendSlackMessage w ("You are assigned to " ++ findRoom rooms myDesk.x myDesk.y ++ " today.")
        (roomImages (findRoom rooms myDesk.x myDesk.y)) := by
  unfold main
  rw [hrooms, hstatus, hoffices]
  show Event.readRoomFile :: Event.getMyStatus :: Event.getOfficeStatus ::
    reportOffice w rooms myStatus officeStatus = _
  unfold reportOffice
  rw [hoffice]
  show Event.readRoomFile :: Event.getMyStatus :: Event.getOfficeStatus ::
    (match office.desks.find? (fun d => decide (d.id = myStatus.resultOfficeDeskId)) with
      | none => [Event.consoleLog "Could not find desk information."]
      | some myDesk => reportDesk w rooms myDesk) = _
  rw [hdesk]
  rfl

/-- A room name that is neither configured in `roomImages` nor a property
name of `Object.prototype` has no image. -/
theorem roomImages_undefined (roomName : String)
    (htable : roomImageTable.lookup roomName = none)
    (hproto : roomName ∉ objectPrototypeKeys) :
    roomImages roomName = ImageRef.undefined := by
  unfold roomImages
  rw [htable]
  exact if_neg hproto

/-- The end-to-end scenario of C9: the text `Team Room 1`, `10,20`, `11,21`
and a desk at (10, 20) give the room "Team Room 1", the message "You are
assigned to Team Room 1 today." and the image `images/Team-Room-1.png`. -/
theorem main_team_room_scenario :
    parseRoomDefinitions (Except.ok teamRoomText)
      = Except.ok { proto := none,
                    props := [("Team Room 1", [Coord.mk (JSNum.num 10) (JSNum.num 20),
                                               Coord.mk (JSNum.num 11) (JSNum.num 21)])] } ∧
    findRoom { proto := none,
               props := [("Team Room 1", [Coord.mk (JSNum.num 10) (JSNum.num 20),
                                          Coord.mk (JSNum.num 11) (JSNum.num 21)])] } 10 20
      = "Team Room 1" ∧
    main (sampleWorld teamRoomText [sampleStatus] [sampleOffice] (Except.ok ()))
      = [Event.readRoomFile, Event.getMyStatus, Event.getOfficeStatus, Event.findRoom 10 20,
         Event.consoleLog "You are assigned to Team Room 1 today.",
         Event.sendSlackMessage "You are assigned to Team Room 1 today."
           (ImageRef.path "images/Team-Room-1.png"),
         Event.readImage "images/Team-Room-1.png",
         Event.filesUpload "android-dev" "You are assigned to Team Room 1 today."
           "images/Team-Room-1.png"] :=
  ⟨by rfl, by decide, by rfl⟩

/-- C9, failing input: a room named `constructor` has no entry in
`roomImages`, yet for a desk in that room `main` passes to `sendSlackMessage`
the function inherited from `Object.prototype` instead of no image; the upload
attempt then throws in `path.join` and the text-only message is sent. -/
theorem main_inherited_image_reference :
    roomImageTable.lookup "constructor" = none ∧
    main (sampleWorld "constructor\n10,20" [sampleStatus] [sampleOffice] (Except.ok ()))
      = [Event.readRoomFile, Event.getMyStatus, Event.getOfficeStatus, Event.findRoom 10 20,
         Event.consoleLog "You are assigned to constructor today.",
         Event.sendSlackMessage "You are assigned to constructor today."
           (ImageRef.inherited "constructor"),
         Event.consoleError "Error uploading image:"
           "The \"path\" argument must be of type string. Received function Object",
         Event.postMessage "android-dev" "You are assigned to constructor today."] :=
  ⟨by decide, by rfl⟩

end Pult
